import Mathlib

/-!
# Shallow embedding of the `accel` memory layer

This development embeds `src/accel/src/memory/device.rs` and
`src/accel/src/memory/host.rs` (the memory-kind data model, the two concrete
allocators, and the copy / zero-fill dispatch functions) into Lean and proves
the specification's claims about them.

Modelling conventions:

* A Rust panic (`assert!`, `assert_eq!`, `assert_ne!`, `.unwrap()`, `.expect`,
  `unimplemented!`, `unreachable!`) is the `Outcome.fatal` constructor carrying
  the panic message; a normal return is `Outcome.ok`.  A recoverable
  `error::Result` value, where the source has one, is an `Except String`
  *inside* the `ok` constructor, so the two failure tiers stay distinguishable.
* The CUDA driver is an oracle (`Driver`) supplying the result of each FFI
  primitive: allocation pointers (or failure), memset / memcpy success, and
  free results.  The effect of a successful transfer of
  `num_elem * size_of` bytes between equally sized regions of the same element
  type is that the destination contents become the source contents; the effect
  of `cuMemsetD{8,16,32}` over `num_elem` words is that every element becomes
  the value decoded from the written little-endian pattern.
* The thread's CUDA context state is a stack of context identities
  (`List Nat`); `guard_context()` pushes and its scoped drop pops — including
  on panic unwinding, so every exit path of a copy restores the caller's stack.
* Raw pointers are `Nat` addresses; the element type `T` is abstract, described
  by a `ScalarType` record mirroring the external `Scalar` trait
  (`size_of`, `to_le_u8/u16/u32 : T → Option _`), extended with the decode
  direction `of_le_u8/u16/u32` that models how the hardware pattern write is
  read back as a `T`.
-/

namespace Acc

/-- The runtime memory-kind tag (`MemoryType` in the source).  Drives all
dispatch in `copy_to_device`, `copy_to_host` and `memset_device`. -/
inductive MemoryType where
  | Host
  | Registered
  | PageLocked
  | Device
  | Array
deriving DecidableEq, Repr

/-- Model of the external `Scalar` trait: byte width, the zero value used by
`zeros`, the little-endian pattern conversions (`None` when the width does not
match), and the decode direction `of_le_*` modelling how a pattern written by
`cuMemsetD{8,16,32}` reads back as an element. -/
structure ScalarType (T : Type) where
  size_of : Nat
  zero : T
  to_le_u8 : T → Option Nat
  to_le_u16 : T → Option Nat
  to_le_u32 : T → Option Nat
  of_le_u8 : Nat → T
  of_le_u16 : Nat → T
  of_le_u32 : Nat → T

/-- The lawfulness contract of a `Scalar` implementation: each `to_le_*`
succeeds exactly when the byte width matches, and decoding the encoded pattern
gives back the original value (little-endian round trip). -/
structure LawfulScalar {T : Type} (S : ScalarType T) : Prop where
  le8 : ∀ x p, S.to_le_u8 x = some p → S.of_le_u8 p = x
  le16 : ∀ x p, S.to_le_u16 x = some p → S.of_le_u16 p = x
  le32 : ∀ x p, S.to_le_u32 x = some p → S.of_le_u32 p = x
  w1 : S.size_of = 1 → ∀ x, (S.to_le_u8 x).isSome
  w2 : S.size_of = 2 → ∀ x, (S.to_le_u16 x).isSome
  w4 : S.size_of = 4 → ∀ x, (S.to_le_u32 x).isSome

/-- A memory region as seen through the `Memory` capability interface:
head address, contents (the slice view), runtime kind tag, whether
`try_as_slice` / `try_as_mut_slice` return `Some`, and the owning execution
context identity reported by `try_get_context`. -/
structure MemRegion (T : Type) where
  head_addr : Nat
  data : List T
  memory_type : MemoryType
  slice_ok : Bool
  context : Option Nat
deriving Repr, DecidableEq

/-- `Memory::num_elem` — the element count of the region. -/
def MemRegion.num_elem {T : Type} (r : MemRegion T) : Nat :=
  r.data.length

/-- `Memory::try_as_slice` — the slice view when the kind exposes one. -/
def MemRegion.try_as_slice {T : Type} (r : MemRegion T) : Option (List T) :=
  if r.slice_ok then some r.data else none

/-- The CUDA driver oracle: the result each FFI primitive would report.
`allocManaged` / `allocHost` map a requested byte size to a base pointer
(`none` = allocation failure); `memsetOk` / `memcpyOk` tell whether
`cuMemsetD*` / `cuMemcpy*` succeed; `freeDevice` / `freeHost` map a pointer to
`some errMsg` on failure of `cuMemFree_v2` / `cuMemFreeHost`. -/
structure Driver where
  allocManaged : Nat → Option Nat
  allocHost : Nat → Option Nat
  memsetOk : Bool
  memcpyOk : Bool
  freeDevice : Nat → Option String
  freeHost : Nat → Option String

/-- The outcome of a call that can panic: `ok` is a normal return, `fatal` is
a Rust panic carrying the panic message. -/
inductive Outcome (α : Type) where
  | ok : α → Outcome α
  | fatal : String → Outcome α
deriving Repr, DecidableEq

/-- Which transfer primitive a copy issued: a direct host slice copy
(`copy_from_slice`), or a `cuMemcpy{HtoD,DtoH,DtoD}_v2` over the given number
of bytes. -/
inductive Transfer where
  | hostSlice
  | htod (bytes : Nat)
  | dtoh (bytes : Nat)
  | dtod (bytes : Nat)
deriving DecidableEq, Repr

/-- Observable result of a successful copy: the transfer primitive issued, the
execution context that was current while it ran, and the destination contents
afterwards. -/
structure CopyOk (T : Type) where
  transfer : Transfer
  boundDuring : Option Nat
  destData : List T
deriving Repr, DecidableEq

/-- The context-guard selection shared by `copy_to_device` and the
device-source branch of `copy_to_host` (the `match` on
`(dest.try_get_context(), src.try_get_context())`): both present must be equal
(else panic), one present binds it, none binds nothing. -/
def guardSelect (dctx sctx : Option Nat) : Outcome (Option Nat) :=
  match dctx, sctx with
  | some d, some s =>
      if d = s then Outcome.ok (some d)
      else Outcome.fatal "assertion failed: d_ctx == s_ctx"
  | some c, none => Outcome.ok (some c)
  | none, some c => Outcome.ok (some c)
  | none, none => Outcome.ok none

/-- `copy_to_device` from `device.rs`: asserts the destination is device
memory, asserts non-aliasing and equal element counts, selects and binds the
context guard, then dispatches on the source kind: host-addressable sources
issue `cuMemcpyHtoD_v2` over `num_elem * size_of` bytes, a device source
issues `cuMemcpyDtoD_v2`, and an `Array` source hits `unimplemented!`.
Returns the outcome together with the thread's context stack after the call
(the scoped guard is dropped on every exit path, panics included). -/
def copy_to_device {T : Type} (D : Driver) (S : ScalarType T) (stack : List Nat)
    (dest src : MemRegion T) : Outcome (CopyOk T) × List Nat :=
  if dest.memory_type ≠ MemoryType.Device then
    (Outcome.fatal "assertion failed: dest.memory_type() == MemoryType::Device", stack)
  else if dest.head_addr = src.head_addr then
    (Outcome.fatal "assertion failed: dest.head_addr() != src.head_addr()", stack)
  else if dest.num_elem ≠ src.num_elem then
    (Outcome.fatal "assertion failed: dest.num_elem() == src.num_elem()", stack)
  else
    match guardSelect dest.context src.context with
    | Outcome.fatal m => (Outcome.fatal m, stack)
    | Outcome.ok g =>
        let stack2 := match g with
          | some c => c :: stack
          | none => stack
        match src.memory_type with
        | MemoryType.Host | MemoryType.Registered | MemoryType.PageLocked =>
            if D.memcpyOk then
              (Outcome.ok ⟨Transfer.htod (dest.num_elem * S.size_of),
                stack2.head?, src.data⟩, stack)
            else (Outcome.fatal "memcpy from Host to Device failed", stack)
        | MemoryType.Device =>
            if D.memcpyOk then
              (Outcome.ok ⟨Transfer.dtod (dest.num_elem * S.size_of),
                stack2.head?, src.data⟩, stack)
            else (Outcome.fatal "memcpy from Device to Device failed", stack)
        | MemoryType.Array =>
            (Outcome.fatal "not implemented: Array memory is not supported yet", stack)

/-- `copy_to_host` from `host.rs`: asserts non-aliasing and equal element
counts, then dispatches on the source kind.  A host-addressable source is a
direct `copy_from_slice` through the unwrapped slice views, with **no**
context guard and **no** context-equality check; a device source selects and
binds the context guard and issues `cuMemcpyDtoH_v2`; an `Array` source hits
`unimplemented!`.  Returns the outcome and the context stack after the call. -/
def copy_to_host {T : Type} (D : Driver) (S : ScalarType T) (stack : List Nat)
    (dest src : MemRegion T) : Outcome (CopyOk T) × List Nat :=
  if dest.head_addr = src.head_addr then
    (Outcome.fatal "assertion failed: dest.head_addr() != src.head_addr()", stack)
  else if dest.num_elem ≠ src.num_elem then
    (Outcome.fatal "assertion failed: dest.num_elem() == src.num_elem()", stack)
  else
    match src.memory_type with
    | MemoryType.Host | MemoryType.Registered | MemoryType.PageLocked =>
        if dest.slice_ok then
          if src.slice_ok then
            (Outcome.ok ⟨Transfer.hostSlice, stack.head?, src.data⟩, stack)
          else (Outcome.fatal "called Option::unwrap on a None value", stack)
        else (Outcome.fatal "called Option::unwrap on a None value", stack)
    | MemoryType.Device =>
        match guardSelect dest.context src.context with
        | Outcome.fatal m => (Outcome.fatal m, stack)
        | Outcome.ok g =>
            let stack2 := match g with
              | some c => c :: stack
              | none => stack
            if D.memcpyOk then
              (Outcome.ok ⟨Transfer.dtoh (dest.num_elem * S.size_of),
                stack2.head?, src.data⟩, stack)
            else (Outcome.fatal "memcpy from Device to Host failed", stack)
    | MemoryType.Array =>
        (Outcome.fatal "not implemented: Array memory is not supported yet", stack)

/-- Which path `memset_device` took: one bulk `cuMemsetD{8,16,32}_v2` call
with the given pattern over `n` elements, or the element-wise slice fill. -/
inductive MemsetPath where
  | bulk8 (pattern n : Nat)
  | bulk16 (pattern n : Nat)
  | bulk32 (pattern n : Nat)
  | elementwise
deriving DecidableEq, Repr

/-- Observable result of a successful `memset_device`: the path taken and the
region contents afterwards. -/
structure MemsetOk (T : Type) where
  path : MemsetPath
  data : List T
deriving Repr, DecidableEq

/-- `memset_device` from `device.rs`: asserts the target is device memory,
then dispatches on `T::size_of()`.  Widths 1, 2 and 4 unwrap the context,
convert the value with `to_le_u{8,16,32}().unwrap()` and issue one bulk
`cuMemsetD{8,16,32}_v2` over `num_elem` elements (a driver failure propagates
as the recoverable `error::Result` channel); any other width falls back to an
element-wise fill of the mutable slice. -/
def memset_device {T : Type} (D : Driver) (S : ScalarType T)
    (mem : MemRegion T) (value : T) : Outcome (Except String (MemsetOk T)) :=
  if mem.memory_type ≠ MemoryType.Device then
    Outcome.fatal "assertion failed: mem.memory_type() == MemoryType::Device"
  else if S.size_of = 1 ∨ S.size_of = 2 ∨ S.size_of = 4 then
    match mem.context with
    | none => Outcome.fatal "called Option::unwrap on a None value"
    | some _ctx =>
        if S.size_of = 1 then
          match S.to_le_u8 value with
          | none => Outcome.fatal "called Option::unwrap on a None value"
          | some p =>
              if D.memsetOk then
                Outcome.ok (Except.ok
                  ⟨MemsetPath.bulk8 p mem.num_elem,
                   mem.data.map (fun _ => S.of_le_u8 p)⟩)
              else Outcome.ok (Except.error "cuMemsetD8_v2 failed")
        else if S.size_of = 2 then
          match S.to_le_u16 value with
          | none => Outcome.fatal "called Option::unwrap on a None value"
          | some p =>
              if D.memsetOk then
                Outcome.ok (Except.ok
                  ⟨MemsetPath.bulk16 p mem.num_elem,
                   mem.data.map (fun _ => S.of_le_u16 p)⟩)
              else Outcome.ok (Except.error "cuMemsetD16_v2 failed")
        else
          match S.to_le_u32 value with
          | none => Outcome.fatal "called Option::unwrap on a None value"
          | some p =>
              if D.memsetOk then
                Outcome.ok (Except.ok
                  ⟨MemsetPath.bulk32 p mem.num_elem,
                   mem.data.map (fun _ => S.of_le_u32 p)⟩)
              else Outcome.ok (Except.error "cuMemsetD32_v2 failed")
  else
    Outcome.ok (Except.ok
      ⟨MemsetPath.elementwise, mem.data.map (fun _ => value)⟩)

/-- `Memset::set` for `DeviceMemory`: `memset_device(self, value)` followed by
`.expect("memset failed")`, so a recoverable memset error escalates to a
panic here. -/
def DeviceMemory.set {T : Type} (D : Driver) (S : ScalarType T)
    (mem : MemRegion T) (value : T) : Outcome (MemRegion T) :=
  match memset_device D S mem value with
  | Outcome.fatal m => Outcome.fatal m
  | Outcome.ok (Except.error _) => Outcome.fatal "memset failed"
  | Outcome.ok (Except.ok r) => Outcome.ok { mem with data := r.data }

/-- `Memset::set` for `PageLockedMemory`: a plain element-wise fill through
`iter_mut`, total and host-side. -/
def PageLockedMemory.set {T : Type} (mem : MemRegion T) (value : T) :
    MemRegion T :=
  { mem with data := mem.data.map (fun _ => value) }

/-- `Allocatable::uninitialized` for `DeviceMemory`: asserts the element count
is positive (`Zero-sized malloc is forbidden`), requests
`size * size_of::<T>()` bytes from `cuMemAllocManaged` and panics with
`Cannot allocate device memory` on failure; on success returns a device-kind
region bound to the given context whose `size` elements hold arbitrary
(uninitialized) contents, modelled by the `junk` function. -/
def DeviceMemory.uninitialized {T : Type} (D : Driver) (S : ScalarType T)
    (context : Nat) (size : Nat) (junk : Nat → T) : Outcome (MemRegion T) :=
  if size = 0 then Outcome.fatal "Zero-sized malloc is forbidden"
  else
    match D.allocManaged (size * S.size_of) with
    | none => Outcome.fatal "Cannot allocate device memory"
    | some ptr =>
        Outcome.ok
          { head_addr := ptr
            data := (List.range size).map junk
            memory_type := MemoryType.Device
            slice_ok := true
            context := some context }

/-- `Allocatable::uninitialized` for `PageLockedMemory`: asserts the element
count is positive, requests `size * size_of::<T>()` bytes from
`cuMemAllocHost_v2` and panics with `Cannot allocate page-locked memory` on
failure; on success returns a page-locked region bound to the given context
with arbitrary contents. -/
def PageLockedMemory.uninitialized {T : Type} (D : Driver) (S : ScalarType T)
    (context : Nat) (size : Nat) (junk : Nat → T) : Outcome (MemRegion T) :=
  if size = 0 then Outcome.fatal "Zero-sized malloc is forbidden"
  else
    match D.allocHost (size * S.size_of) with
    | none => Outcome.fatal "Cannot allocate page-locked memory"
    | some ptr =>
        Outcome.ok
          { head_addr := ptr
            data := (List.range size).map junk
            memory_type := MemoryType.PageLocked
            slice_ok := true
            context := some context }

/-- Modelled from the spec: the generic `zeros` convenience constructor lives
in `memory/mod.rs`, which is not among the provided sources; per the spec
(§4.3), `zeros(context, shape)` allocates uninitialized storage and then
zero-fills it via `Memset::set` with the element type's zero value. -/
def DeviceMemory.zeros {T : Type} (D : Driver) (S : ScalarType T)
    (context : Nat) (size : Nat) (junk : Nat → T) : Outcome (MemRegion T) :=
  match DeviceMemory.uninitialized D S context size junk with
  | Outcome.fatal m => Outcome.fatal m
  | Outcome.ok mem => DeviceMemory.set D S mem S.zero

/-- Modelled from the spec: `zeros` for `PageLockedMemory` — allocate
uninitialized then zero-fill through the page-locked `Memset::set`
(see `DeviceMemory.zeros`). -/
def PageLockedMemory.zeros {T : Type} (D : Driver) (S : ScalarType T)
    (context : Nat) (size : Nat) (junk : Nat → T) : Outcome (MemRegion T) :=
  match PageLockedMemory.uninitialized D S context size junk with
  | Outcome.fatal m => Outcome.fatal m
  | Outcome.ok mem => Outcome.ok (PageLockedMemory.set mem S.zero)

/-- `Memcpy::copy_from` for a device destination: run `copy_to_device` and,
on success, the destination region with its contents replaced. -/
def DeviceMemory.copy_from {T : Type} (D : Driver) (S : ScalarType T)
    (stack : List Nat) (dest src : MemRegion T) : Outcome (MemRegion T) :=
  match (copy_to_device D S stack dest src).1 with
  | Outcome.fatal m => Outcome.fatal m
  | Outcome.ok tr => Outcome.ok { dest with data := tr.destData }

/-- `Memcpy::copy_from` for a page-locked destination: run `copy_to_host`
and, on success, the destination region with its contents replaced. -/
def PageLockedMemory.copy_from {T : Type} (D : Driver) (S : ScalarType T)
    (stack : List Nat) (dest src : MemRegion T) : Outcome (MemRegion T) :=
  match (copy_to_host D S stack dest src).1 with
  | Outcome.fatal m => Outcome.fatal m
  | Outcome.ok tr => Outcome.ok { dest with data := tr.destData }

/-- Observable trace of a destructor run: the pointers passed to the
kind-specific free primitive (in order), and the error-log line emitted, if
any.  The destructor itself is a total function: it always completes. -/
structure DropTrace where
  freeCalls : List Nat
  logged : Option String
deriving DecidableEq, Repr

/-- `Drop for DeviceMemory`: calls `cuMemFree_v2` on the region's pointer
exactly once; on failure logs `Failed to free device memory` and continues. -/
def DeviceMemory.drop {T : Type} (D : Driver) (mem : MemRegion T) : DropTrace :=
  { freeCalls := [mem.head_addr]
    logged := (D.freeDevice mem.head_addr).map
      (fun e => "Failed to free device memory: " ++ e) }

/-- `Drop for PageLockedMemory`: calls `cuMemFreeHost` on the region's pointer
exactly once; on failure logs `Cannot free page-locked memory` and
continues. -/
def PageLockedMemory.drop {T : Type} (D : Driver) (mem : MemRegion T) :
    DropTrace :=
  { freeCalls := [mem.head_addr]
    logged := (D.freeHost mem.head_addr).map
      (fun e => "Cannot free page-locked memory: " ++ e) }

/-! ## Concrete instances used to evaluate the model on closed inputs -/

/-- A 1-byte scalar over `Nat` (think `u8`): `to_le_u8` always succeeds and
decoding is the identity. -/
def SByte : ScalarType Nat :=
  { size_of := 1
    zero := 0
    to_le_u8 := fun x => some x
    to_le_u16 := fun _ => none
    to_le_u32 := fun _ => none
    of_le_u8 := fun p => p
    of_le_u16 := fun _ => 0
    of_le_u32 := fun _ => 0 }

/-- A 2-byte scalar over `Nat` (think `u16`). -/
def SWord : ScalarType Nat :=
  { size_of := 2
    zero := 0
    to_le_u8 := fun _ => none
    to_le_u16 := fun x => some x
    to_le_u32 := fun _ => none
    of_le_u8 := fun _ => 0
    of_le_u16 := fun p => p
    of_le_u32 := fun _ => 0 }

/-- A 4-byte scalar over `Nat` (think `u32`). -/
def SQuad : ScalarType Nat :=
  { size_of := 4
    zero := 0
    to_le_u8 := fun _ => none
    to_le_u16 := fun _ => none
    to_le_u32 := fun x => some x
    of_le_u8 := fun _ => 0
    of_le_u16 := fun _ => 0
    of_le_u32 := fun p => p }

/-- An 8-byte scalar over `Nat` (think `u64` / `f64`): no 1/2/4-byte pattern
conversion succeeds, so `memset_device` must take the element-wise path. -/
def SWide : ScalarType Nat :=
  { size_of := 8
    zero := 0
    to_le_u8 := fun _ => none
    to_le_u16 := fun _ => none
    to_le_u32 := fun _ => none
    of_le_u8 := fun _ => 0
    of_le_u16 := fun _ => 0
    of_le_u32 := fun _ => 0 }

theorem SByte_lawful : LawfulScalar SByte := by
  constructor <;> intros <;> simp_all [SByte]

theorem SWide_lawful : LawfulScalar SWide := by
  constructor <;> intros <;> simp_all [SWide]

/-- A driver on which every primitive succeeds: managed allocations start at
address 100, host allocations at 200. -/
def D0 : Driver :=
  { allocManaged := fun _ => some 100
    allocHost := fun _ => some 200
    memsetOk := true
    memcpyOk := true
    freeDevice := fun _ => none
    freeHost := fun _ => none }

/-- A driver whose allocation primitives always fail. -/
def Dfail : Driver :=
  { allocManaged := fun _ => none
    allocHost := fun _ => none
    memsetOk := true
    memcpyOk := true
    freeDevice := fun _ => none
    freeHost := fun _ => none }

/-- A driver whose free primitives always fail with a CUDA error string. -/
def DfreeErr : Driver :=
  { allocManaged := fun _ => some 100
    allocHost := fun _ => some 200
    memsetOk := true
    memcpyOk := true
    freeDevice := fun _ => some "CUDA_ERROR_INVALID_VALUE"
    freeHost := fun _ => some "CUDA_ERROR_INVALID_VALUE" }

/-- A page-locked region at address 10 owned by context 0. -/
def plA : MemRegion Nat :=
  { head_addr := 10, data := [1, 2], memory_type := MemoryType.PageLocked
    slice_ok := true, context := some 0 }

/-- A page-locked region at address 20 owned by context 1 (a different
context than `plA`). -/
def plB : MemRegion Nat :=
  { head_addr := 20, data := [3, 4], memory_type := MemoryType.PageLocked
    slice_ok := true, context := some 1 }

/-- A device region at address 30 owned by context 0. -/
def devA : MemRegion Nat :=
  { head_addr := 30, data := [5, 6], memory_type := MemoryType.Device
    slice_ok := true, context := some 0 }

/-- A device region at address 40 owned by context 0. -/
def devB : MemRegion Nat :=
  { head_addr := 40, data := [7, 8], memory_type := MemoryType.Device
    slice_ok := true, context := some 0 }

/-- An array-kind region at address 50 (opaque storage, no slice view). -/
def arrA : MemRegion Nat :=
  { head_addr := 50, data := [9, 9], memory_type := MemoryType.Array
    slice_ok := false, context := some 0 }

/-! ## Helper lemmas -/

/-- On a device-kind region that owns a context, `Memset::set` with a lawful
scalar succeeds whenever the driver's memset primitives succeed, and leaves
every element equal to the fill value (on the bulk path because the written
pattern decodes back to the value, on the element-wise path directly). -/
theorem DeviceMemory.set_replicate {T : Type} (D : Driver) (S : ScalarType T)
    (L : LawfulScalar S) (mem : MemRegion T) (value : T) (c : Nat)
    (hty : mem.memory_type = MemoryType.Device)
    (hctx : mem.context = some c)
    (hms : D.memsetOk = true) :
    DeviceMemory.set D S mem value =
      Outcome.ok { mem with data := List.replicate mem.data.length value } := by
  by_cases h1 : S.size_of = 1
  · obtain ⟨p, hp⟩ := Option.isSome_iff_exists.mp (L.w1 h1 value)
    simp [DeviceMemory.set, memset_device, hty, hctx, hp, h1, hms,
          L.le8 value p hp, List.map_const']
  · by_cases h2 : S.size_of = 2
    · obtain ⟨p, hp⟩ := Option.isSome_iff_exists.mp (L.w2 h2 value)
      simp [DeviceMemory.set, memset_device, hty, hctx, hp, h1, h2, hms,
            L.le16 value p hp, List.map_const']
    · by_cases h4 : S.size_of = 4
      · obtain ⟨p, hp⟩ := Option.isSome_iff_exists.mp (L.w4 h4 value)
        simp [DeviceMemory.set, memset_device, hty, hctx, hp, h1, h2, h4, hms,
              L.le32 value p hp, List.map_const']
      · simp [DeviceMemory.set, memset_device, hty, h1, h2, h4,
              List.map_const']

/-- Characterization of `DeviceMemory.zeros` on a positive size when the
driver's allocation and memset primitives succeed. -/
theorem device_zeros_ok {T : Type} (D : Driver) (S : ScalarType T)
    (L : LawfulScalar S) (c n ptr : Nat) (junk : Nat → T)
    (hn : n ≠ 0)
    (halloc : D.allocManaged (n * S.size_of) = some ptr)
    (hms : D.memsetOk = true) :
    DeviceMemory.zeros D S c n junk =
      Outcome.ok
        { head_addr := ptr, data := List.replicate n S.zero
          memory_type := MemoryType.Device, slice_ok := true
          context := some c } := by
  have hu : DeviceMemory.uninitialized D S c n junk =
      Outcome.ok
        { head_addr := ptr, data := (List.range n).map junk
          memory_type := MemoryType.Device, slice_ok := true
          context := some c } := by
    unfold DeviceMemory.uninitialized
    rw [if_neg hn, halloc]
  unfold DeviceMemory.zeros
  rw [hu]
  dsimp only
  rw [DeviceMemory.set_replicate D S L _ S.zero c rfl rfl hms]
  simp

/-- Characterization of `PageLockedMemory.zeros` on a positive size when the
driver's host allocation succeeds. -/
theorem page_locked_zeros_ok {T : Type} (D : Driver) (S : ScalarType T)
    (c n ptr : Nat) (junk : Nat → T)
    (hn : n ≠ 0)
    (halloc : D.allocHost (n * S.size_of) = some ptr) :
    PageLockedMemory.zeros D S c n junk =
      Outcome.ok
        { head_addr := ptr, data := List.replicate n S.zero
          memory_type := MemoryType.PageLocked, slice_ok := true
          context := some c } := by
  have hu : PageLockedMemory.uninitialized D S c n junk =
      Outcome.ok
        { head_addr := ptr, data := (List.range n).map junk
          memory_type := MemoryType.PageLocked, slice_ok := true
          context := some c } := by
    unfold PageLockedMemory.uninitialized
    rw [if_neg hn, halloc]
  unfold PageLockedMemory.zeros
  rw [hu]
  simp [PageLockedMemory.set, Function.comp, List.map_const']
  rw [← List.map_map, List.map_const']
  simp

/-- Every branch of `copy_to_device` restores the caller's context stack: the
scoped guard is released on each exit path. -/
theorem copy_to_device_stack {T : Type} (D : Driver) (S : ScalarType T)
    (stack : List Nat) (dest src : MemRegion T) :
    (copy_to_device D S stack dest src).2 = stack := by
  unfold copy_to_device
  dsimp only
  repeat' split
  all_goals rfl

/-- Every branch of `copy_to_host` restores the caller's context stack. -/
theorem copy_to_host_stack {T : Type} (D : Driver) (S : ScalarType T)
    (stack : List Nat) (dest src : MemRegion T) :
    (copy_to_host D S stack dest src).2 = stack := by
  unfold copy_to_host
  dsimp only
  repeat' split
  all_goals rfl

/-! ## Claims -/

/-- C1: for every positive element count `n` and every lawful supported
scalar type, `zeros(ctx, n)` — for both `DeviceMemory` and
`PageLockedMemory` — returns a region whose `num_elem` equals `n` and whose
every element equals the scalar's zero value (given that the underlying
allocation and memset primitives succeed). -/
theorem C1_zeros_spec {T : Type} (D : Driver) (S : ScalarType T)
    (L : LawfulScalar S) (c n pd ph : Nat) (junkd junkh : Nat → T)
    (hn : 0 < n)
    (hd : D.allocManaged (n * S.size_of) = some pd)
    (hh : D.allocHost (n * S.size_of) = some ph)
    (hms : D.memsetOk = true) :
    (∃ r, DeviceMemory.zeros D S c n junkd = Outcome.ok r ∧
      r.num_elem = n ∧ ∀ x ∈ r.data, x = S.zero) ∧
    (∃ r, PageLockedMemory.zeros D S c n junkh = Outcome.ok r ∧
      r.num_elem = n ∧ ∀ x ∈ r.data, x = S.zero) := by
  have hn0 : n ≠ 0 := Nat.pos_iff_ne_zero.mp hn
  constructor
  · exact ⟨_, device_zeros_ok D S L c n pd junkd hn0 hd hms,
      by simp [MemRegion.num_elem],
      fun x hx => List.eq_of_mem_replicate hx⟩
  · exact ⟨_, page_locked_zeros_ok D S c n ph junkh hn0 hh,
      by simp [MemRegion.num_elem],
      fun x hx => List.eq_of_mem_replicate hx⟩

/-- Witness for C1 at the concrete input `n = 3` over the 1-byte scalar and
the always-succeeding driver. -/
theorem C1_zeros_spec_witness :
    (∃ r, DeviceMemory.zeros D0 SByte 0 3 (fun _ => 7) = Outcome.ok r ∧
      r.num_elem = 3 ∧ ∀ x ∈ r.data, x = SByte.zero) ∧
    (∃ r, PageLockedMemory.zeros D0 SByte 0 3 (fun _ => 7) = Outcome.ok r ∧
      r.num_elem = 3 ∧ ∀ x ∈ r.data, x = SByte.zero) :=
  C1_zeros_spec D0 SByte SByte_lawful 0 3 100 200 (fun _ => 7) (fun _ => 7)
    (by decide) rfl rfl rfl

/-- C5: a zero-sized allocation fails fast with the distinguishable
`Zero-sized malloc is forbidden` panic — for `uninitialized`, and hence for
`zeros`, on both concrete kinds — and never returns a region. -/
theorem C5_zero_size_forbidden {T : Type} (D : Driver) (S : ScalarType T)
    (c : Nat) (junk : Nat → T) :
    DeviceMemory.uninitialized D S c 0 junk =
      Outcome.fatal "Zero-sized malloc is forbidden" ∧
    PageLockedMemory.uninitialized D S c 0 junk =
      Outcome.fatal "Zero-sized malloc is forbidden" ∧
    DeviceMemory.zeros D S c 0 junk =
      Outcome.fatal "Zero-sized malloc is forbidden" ∧
    PageLockedMemory.zeros D S c 0 junk =
      Outcome.fatal "Zero-sized malloc is forbidden" :=
  ⟨rfl, rfl, rfl, rfl⟩

/-- C8 counterexample: when the underlying allocation primitive fails, both
`uninitialized` implementations panic (`.expect`) with a fixed message — the
failure is not surfaced as a recoverable typed error, and neither the
requested byte size nor the context identity is carried. -/
theorem C8_counterexample :
    DeviceMemory.uninitialized Dfail SByte 7 5 (fun _ => 0) =
      Outcome.fatal "Cannot allocate device memory" ∧
    PageLockedMemory.uninitialized Dfail SByte 7 5 (fun _ => 0) =
      Outcome.fatal "Cannot allocate page-locked memory" :=
  ⟨rfl, rfl⟩

/-- C8 (amended): for any positive element count, a failure of the
underlying allocation primitive makes `uninitialized` (and hence `zeros`)
panic with `Cannot allocate device memory` / `Cannot allocate page-locked
memory` respectively; no recoverable error value is returned. -/
theorem C8_alloc_failure_panics {T : Type} (D : Driver) (S : ScalarType T)
    (c n : Nat) (junk : Nat → T) (hn : n ≠ 0)
    (hd : D.allocManaged (n * S.size_of) = none)
    (hh : D.allocHost (n * S.size_of) = none) :
    DeviceMemory.uninitialized D S c n junk =
      Outcome.fatal "Cannot allocate device memory" ∧
    PageLockedMemory.uninitialized D S c n junk =
      Outcome.fatal "Cannot allocate page-locked memory" := by
  constructor
  · unfold DeviceMemory.uninitialized
    rw [if_neg hn, hd]
  · unfold PageLockedMemory.uninitialized
    rw [if_neg hn, hh]

/-- Witness for the amended C8 at the concrete input `n = 5` on the
always-failing allocator. -/
theorem C8_alloc_failure_panics_witness :
    DeviceMemory.uninitialized Dfail SByte 7 5 (fun _ => 1) =
      Outcome.fatal "Cannot allocate device memory" ∧
    PageLockedMemory.uninitialized Dfail SByte 7 5 (fun _ => 1) =
      Outcome.fatal "Cannot allocate page-locked memory" :=
  C8_alloc_failure_panics Dfail SByte 7 5 (fun _ => 1) (by decide) rfl rfl

/-- C9: destruction of either concrete kind calls the kind-specific free
primitive exactly once on the region's pointer and always completes (the
model of `drop` is a total function): a reported free failure is recorded on
the log channel with the kind-specific message, and nothing is logged on
success. -/
theorem C9_drop_total {T : Type} (D : Driver) (mem : MemRegion T) :
    ((DeviceMemory.drop D mem).freeCalls = [mem.head_addr]) ∧
    ((PageLockedMemory.drop D mem).freeCalls = [mem.head_addr]) ∧
    (∀ e, D.freeDevice mem.head_addr = some e →
      (DeviceMemory.drop D mem).logged =
        some ("Failed to free device memory: " ++ e)) ∧
    (D.freeDevice mem.head_addr = none →
      (DeviceMemory.drop D mem).logged = none) ∧
    (∀ e, D.freeHost mem.head_addr = some e →
      (PageLockedMemory.drop D mem).logged =
        some ("Cannot free page-locked memory: " ++ e)) ∧
    (D.freeHost mem.head_addr = none →
      (PageLockedMemory.drop D mem).logged = none) := by
  refine ⟨rfl, rfl, fun e he => ?_, fun he => ?_, fun e he => ?_,
    fun he => ?_⟩ <;>
    simp [DeviceMemory.drop, PageLockedMemory.drop, he]

/-- Witness for C9: a failing free is logged, a succeeding free logs
nothing; both destructor runs complete and free exactly once. -/
theorem C9_drop_total_witness :
    (DeviceMemory.drop DfreeErr devA).logged =
      some ("Failed to free device memory: " ++ "CUDA_ERROR_INVALID_VALUE") ∧
    (PageLockedMemory.drop D0 plA).logged = none ∧
    (DeviceMemory.drop DfreeErr devA).freeCalls = [devA.head_addr] :=
  ⟨(C9_drop_total DfreeErr devA).2.2.1 "CUDA_ERROR_INVALID_VALUE" rfl,
   (C9_drop_total D0 plA).2.2.2.2.2 rfl,
   (C9_drop_total DfreeErr devA).1⟩

/-- C4: for both copy paths and any pair of memory kinds, aliasing operands
(same head address) and mismatched element counts are fatal assertion
failures (programming errors, not recoverable errors); the function panics
before reaching the guard selection and dispatch, so no transfer is
issued. -/
theorem C4_copy_precondition_asserts {T : Type} (D : Driver)
    (S : ScalarType T) :
    (∀ (stack : List Nat) (dest src : MemRegion T),
      dest.memory_type = MemoryType.Device →
      dest.head_addr = src.head_addr →
      (copy_to_device D S stack dest src).1 =
        Outcome.fatal "assertion failed: dest.head_addr() != src.head_addr()") ∧
    (∀ (stack : List Nat) (dest src : MemRegion T),
      dest.memory_type = MemoryType.Device →
      dest.head_addr ≠ src.head_addr →
      dest.num_elem ≠ src.num_elem →
      (copy_to_device D S stack dest src).1 =
        Outcome.fatal "assertion failed: dest.num_elem() == src.num_elem()") ∧
    (∀ (stack : List Nat) (dest src : MemRegion T),
      dest.head_addr = src.head_addr →
      (copy_to_host D S stack dest src).1 =
        Outcome.fatal "assertion failed: dest.head_addr() != src.head_addr()") ∧
    (∀ (stack : List Nat) (dest src : MemRegion T),
      dest.head_addr ≠ src.head_addr →
      dest.num_elem ≠ src.num_elem →
      (copy_to_host D S stack dest src).1 =
        Outcome.fatal "assertion failed: dest.num_elem() == src.num_elem()") := by
  refine ⟨?_, ?_, ?_, ?_⟩
  · intro stack dest src hty hh
    simp [copy_to_device, hty, hh]
  · intro stack dest src hty hh hn
    simp [copy_to_device, hty, hh, hn]
  · intro stack dest src hh
    simp [copy_to_host, hh]
  · intro stack dest src hh hn
    simp [copy_to_host, hh, hn]

/-- Witness for C4 on concrete aliased and count-mismatched region pairs. -/
theorem C4_copy_precondition_asserts_witness :
    ((copy_to_device D0 SByte [] devA { plA with head_addr := 30 }).1 =
      Outcome.fatal "assertion failed: dest.head_addr() != src.head_addr()") ∧
    ((copy_to_device D0 SByte [] devA { plA with data := [1] }).1 =
      Outcome.fatal "assertion failed: dest.num_elem() == src.num_elem()") ∧
    ((copy_to_host D0 SByte [] plA { plB with head_addr := 10 }).1 =
      Outcome.fatal "assertion failed: dest.head_addr() != src.head_addr()") ∧
    ((copy_to_host D0 SByte [] plA { plB with data := [1, 2, 3] }).1 =
      Outcome.fatal "assertion failed: dest.num_elem() == src.num_elem()") := by
  have H := C4_copy_precondition_asserts (T := Nat) D0 SByte
  exact ⟨H.1 [] devA _ rfl rfl,
         H.2.1 [] devA _ rfl (by decide) (by decide),
         H.2.2.1 [] plA _ rfl,
         H.2.2.2 [] plA _ (by decide) (by decide)⟩

/-- C6: `memset_device` asserts the target is device-kind memory, and
dispatches on the element byte width: for widths 1, 2 and 4 it converts the
fill value to the corresponding unsigned little-endian pattern
(`to_le_u{8,16,32}`) and issues one bulk pattern-set call covering
`num_elem` elements; for any other width it falls back to an element-wise
fill through the mutable slice view. -/
theorem C6_memset_dispatch {T : Type} (D : Driver) (S : ScalarType T) :
    (∀ (mem : MemRegion T) (v : T),
      mem.memory_type ≠ MemoryType.Device →
      memset_device D S mem v =
        Outcome.fatal "assertion failed: mem.memory_type() == MemoryType::Device") ∧
    (∀ (mem : MemRegion T) (v : T) (c p : Nat),
      mem.memory_type = MemoryType.Device → mem.context = some c →
      D.memsetOk = true → S.size_of = 1 → S.to_le_u8 v = some p →
      memset_device D S mem v =
        Outcome.ok (Except.ok
          ⟨MemsetPath.bulk8 p mem.num_elem,
           mem.data.map (fun _ => S.of_le_u8 p)⟩)) ∧
    (∀ (mem : MemRegion T) (v : T) (c p : Nat),
      mem.memory_type = MemoryType.Device → mem.context = some c →
      D.memsetOk = true → S.size_of = 2 → S.to_le_u16 v = some p →
      memset_device D S mem v =
        Outcome.ok (Except.ok
          ⟨MemsetPath.bulk16 p mem.num_elem,
           mem.data.map (fun _ => S.of_le_u16 p)⟩)) ∧
    (∀ (mem : MemRegion T) (v : T) (c p : Nat),
      mem.memory_type = MemoryType.Device → mem.context = some c →
      D.memsetOk = true → S.size_of = 4 → S.to_le_u32 v = some p →
      memset_device D S mem v =
        Outcome.ok (Except.ok
          ⟨MemsetPath.bulk32 p mem.num_elem,
           mem.data.map (fun _ => S.of_le_u32 p)⟩)) ∧
    (∀ (mem : MemRegion T) (v : T),
      mem.memory_type = MemoryType.Device →
      S.size_of ≠ 1 → S.size_of ≠ 2 → S.size_of ≠ 4 →
      memset_device D S mem v =
        Outcome.ok (Except.ok
          ⟨MemsetPath.elementwise, mem.data.map (fun _ => v)⟩)) := by
  refine ⟨?_, ?_, ?_, ?_, ?_⟩
  · intro mem v hty
    simp [memset_device, hty]
  · intro mem v c p hty hc hms h1 hp
    simp [memset_device, hty, hc, hms, h1, hp]
  · intro mem v c p hty hc hms h2 hp
    simp [memset_device, hty, hc, hms, h2, hp]
  · intro mem v c p hty hc hms h4 hp
    simp [memset_device, hty, hc, hms, h4, hp]
  · intro mem v hty h1 h2 h4
    simp [memset_device, hty, h1, h2, h4]

/-- Witness for C6: a non-device target panics; a 1-byte scalar takes the
bulk path with the converted pattern over all elements; an 8-byte scalar
takes the element-wise fallback, with identical observable contents. -/
theorem C6_memset_dispatch_witness :
    (memset_device D0 SByte plA 9 =
      Outcome.fatal "assertion failed: mem.memory_type() == MemoryType::Device") ∧
    (memset_device D0 SByte devA 9 =
      Outcome.ok (Except.ok ⟨MemsetPath.bulk8 9 2, [9, 9]⟩)) ∧
    (memset_device D0 SWide devA 9 =
      Outcome.ok (Except.ok ⟨MemsetPath.elementwise, [9, 9]⟩)) := by
  have H := C6_memset_dispatch (T := Nat) D0 SByte
  have H8 := C6_memset_dispatch (T := Nat) D0 SWide
  exact ⟨H.1 plA 9 (by decide),
         (H.2.1 devA 9 0 9 rfl rfl rfl rfl rfl).trans rfl,
         (H8.2.2.2.2 devA 9 rfl (by decide) (by decide) (by decide)).trans rfl⟩

/-- C10: in `copy_to_host`, whenever the source kind is `Host`, `Registered`
or `PageLocked`, the copy is a direct slice copy performed with no context
guard bound (the current context is unchanged) and no context-equality
check: a host-to-host copy between regions owned by different contexts
completes without failing. -/
theorem C10_host_copy_no_guard {T : Type} (D : Driver) (S : ScalarType T)
    (stack : List Nat) (dest src : MemRegion T) (d s : Nat)
    (hk : src.memory_type = MemoryType.Host ∨
          src.memory_type = MemoryType.Registered ∨
          src.memory_type = MemoryType.PageLocked)
    (hds : dest.slice_ok = true) (hss : src.slice_ok = true)
    (hh : dest.head_addr ≠ src.head_addr)
    (hn : dest.num_elem = src.num_elem)
    (hdc : dest.context = some d) (hsc : src.context = some s)
    (hne : d ≠ s) :
    copy_to_host D S stack dest src =
      (Outcome.ok ⟨Transfer.hostSlice, stack.head?, src.data⟩, stack) := by
  rcases hk with hk | hk | hk <;>
    simp [copy_to_host, hk, hds, hss, hh, hn]

/-- Witness for C10: `plA` (context 0) receives from `plB` (context 1) —
different owning contexts, yet the copy completes with no context bound. -/
theorem C10_host_copy_no_guard_witness :
    copy_to_host D0 SByte [] plA plB =
      (Outcome.ok ⟨Transfer.hostSlice, none, [3, 4]⟩, []) :=
  C10_host_copy_no_guard D0 SByte [] plA plB 0 1 (Or.inr (Or.inr rfl))
    rfl rfl (by decide) rfl rfl rfl (by decide)

/-- C2: the copy dispatches on the source's runtime kind tag.  With distinct
head addresses and equal element counts: a host-addressable source into a
host-addressable destination is a direct element-wise slice copy; into a
device destination it is one host-to-device transfer over
`num_elem * size_of` bytes; a device source issues a device-to-host or
device-to-device transfer over `num_elem * size_of` bytes according to the
destination; an `Array` source fails fast in both copy paths (a panic, not a
silent no-op). -/
theorem C2_copy_dispatch {T : Type} (D : Driver) (S : ScalarType T)
    (hmc : D.memcpyOk = true) :
    (∀ (stack : List Nat) (dest src : MemRegion T),
      (src.memory_type = MemoryType.Host ∨
       src.memory_type = MemoryType.Registered ∨
       src.memory_type = MemoryType.PageLocked) →
      dest.slice_ok = true → src.slice_ok = true →
      dest.head_addr ≠ src.head_addr → dest.num_elem = src.num_elem →
      (copy_to_host D S stack dest src).1 =
        Outcome.ok ⟨Transfer.hostSlice, stack.head?, src.data⟩) ∧
    (∀ (stack : List Nat) (dest src : MemRegion T) (g : Option Nat),
      (src.memory_type = MemoryType.Host ∨
       src.memory_type = MemoryType.Registered ∨
       src.memory_type = MemoryType.PageLocked) →
      dest.memory_type = MemoryType.Device →
      dest.head_addr ≠ src.head_addr → dest.num_elem = src.num_elem →
      guardSelect dest.context src.context = Outcome.ok g →
      ∃ b, (copy_to_device D S stack dest src).1 =
        Outcome.ok ⟨Transfer.htod (dest.num_elem * S.size_of), b, src.data⟩) ∧
    (∀ (stack : List Nat) (dest src : MemRegion T) (g : Option Nat),
      src.memory_type = MemoryType.Device →
      dest.head_addr ≠ src.head_addr → dest.num_elem = src.num_elem →
      guardSelect dest.context src.context = Outcome.ok g →
      ∃ b, (copy_to_host D S stack dest src).1 =
        Outcome.ok ⟨Transfer.dtoh (dest.num_elem * S.size_of), b, src.data⟩) ∧
    (∀ (stack : List Nat) (dest src : MemRegion T) (g : Option Nat),
      src.memory_type = MemoryType.Device →
      dest.memory_type = MemoryType.Device →
      dest.head_addr ≠ src.head_addr → dest.num_elem = src.num_elem →
      guardSelect dest.context src.context = Outcome.ok g →
      ∃ b, (copy_to_device D S stack dest src).1 =
        Outcome.ok ⟨Transfer.dtod (dest.num_elem * S.size_of), b, src.data⟩) ∧
    (∀ (stack : List Nat) (dest src : MemRegion T) (g : Option Nat),
      src.memory_type = MemoryType.Array →
      dest.memory_type = MemoryType.Device →
      dest.head_addr ≠ src.head_addr → dest.num_elem = src.num_elem →
      guardSelect dest.context src.context = Outcome.ok g →
      (copy_to_device D S stack dest src).1 =
        Outcome.fatal "not implemented: Array memory is not supported yet") ∧
    (∀ (stack : List Nat) (dest src : MemRegion T),
      src.memory_type = MemoryType.Array →
      dest.head_addr ≠ src.head_addr → dest.num_elem = src.num_elem →
      (copy_to_host D S stack dest src).1 =
        Outcome.fatal "not implemented: Array memory is not supported yet") := by
  refine ⟨?_, ?_, ?_, ?_, ?_, ?_⟩
  · intro stack dest src hk hds hss hh hn
    rcases hk with hk | hk | hk <;> simp [copy_to_host, hk, hds, hss, hh, hn]
  · intro stack dest src g hk hdev hh hn hg
    cases g with
    | some c =>
        exact ⟨some c, by rcases hk with hk | hk | hk <;>
          simp [copy_to_device, hk, hdev, hh, hn, hg, hmc]⟩
    | none =>
        exact ⟨stack.head?, by rcases hk with hk | hk | hk <;>
          simp [copy_to_device, hk, hdev, hh, hn, hg, hmc]⟩
  · intro stack dest src g hk hh hn hg
    cases g with
    | some c => exact ⟨some c, by simp [copy_to_host, hk, hh, hn, hg, hmc]⟩
    | none => exact ⟨stack.head?, by simp [copy_to_host, hk, hh, hn, hg, hmc]⟩
  · intro stack dest src g hk hdev hh hn hg
    cases g with
    | some c => exact ⟨some c, by simp [copy_to_device, hk, hdev, hh, hn, hg, hmc]⟩
    | none => exact ⟨stack.head?, by simp [copy_to_device, hk, hdev, hh, hn, hg, hmc]⟩
  · intro stack dest src g hk hdev hh hn hg
    simp [copy_to_device, hk, hdev, hh, hn, hg]
  · intro stack dest src hk hh hn
    simp [copy_to_host, hk, hh, hn]

/-- Witness for C2: each dispatch arm evaluated on concrete regions —
page-locked→page-locked (slice copy), page-locked→device (HtoD over
`2 * 1` bytes), device→page-locked (DtoH), device→device (DtoD), and an
array source panicking in both copy paths. -/
theorem C2_copy_dispatch_witness :
    ((copy_to_host D0 SByte [] plA plB).1 =
      Outcome.ok ⟨Transfer.hostSlice, none, [3, 4]⟩) ∧
    (∃ b, (copy_to_device D0 SByte [] devA plA).1 =
      Outcome.ok ⟨Transfer.htod 2, b, [1, 2]⟩) ∧
    (∃ b, (copy_to_host D0 SByte [] plA devA).1 =
      Outcome.ok ⟨Transfer.dtoh 2, b, [5, 6]⟩) ∧
    (∃ b, (copy_to_device D0 SByte [] devA devB).1 =
      Outcome.ok ⟨Transfer.dtod 2, b, [7, 8]⟩) ∧
    ((copy_to_device D0 SByte [] devA arrA).1 =
      Outcome.fatal "not implemented: Array memory is not supported yet") ∧
    ((copy_to_host D0 SByte [] plA arrA).1 =
      Outcome.fatal "not implemented: Array memory is not supported yet") := by
  have H := C2_copy_dispatch (T := Nat) D0 SByte rfl
  exact ⟨H.1 [] plA plB (Or.inr (Or.inr rfl)) rfl rfl (by decide) rfl,
         H.2.1 [] devA plA (some 0) (Or.inr (Or.inr rfl)) rfl (by decide) rfl rfl,
         H.2.2.1 [] plA devA (some 0) rfl (by decide) rfl rfl,
         H.2.2.2.1 [] devA devB (some 0) rfl rfl (by decide) rfl rfl,
         H.2.2.2.2.1 [] devA arrA (some 0) rfl rfl (by decide) rfl rfl,
         H.2.2.2.2.2 [] plA arrA rfl (by decide) rfl⟩

/-- A successful `copy_to_device` from a host-addressable source: one HtoD
transfer, run with the guard-selected context stacked as current. -/
theorem copy_to_device_host_src {T : Type} (D : Driver) (S : ScalarType T)
    (stack : List Nat) (dest src : MemRegion T) (g : Option Nat)
    (hk : src.memory_type = MemoryType.Host ∨
          src.memory_type = MemoryType.Registered ∨
          src.memory_type = MemoryType.PageLocked)
    (hmc : D.memcpyOk = true)
    (hty : dest.memory_type = MemoryType.Device)
    (hh : dest.head_addr ≠ src.head_addr)
    (hn : dest.num_elem = src.num_elem)
    (hg : guardSelect dest.context src.context = Outcome.ok g) :
    (copy_to_device D S stack dest src).1 =
      Outcome.ok ⟨Transfer.htod (dest.num_elem * S.size_of),
        (match g with
          | some c => c :: stack
          | none => stack : List Nat).head?, src.data⟩ := by
  cases g with
  | some c =>
      rcases hk with hk | hk | hk <;>
        simp [copy_to_device, hk, hty, hh, hn, hg, hmc]
  | none =>
      rcases hk with hk | hk | hk <;>
        simp [copy_to_device, hk, hty, hh, hn, hg, hmc]

/-- A successful `copy_to_device` from a device source: one DtoD transfer,
run with the guard-selected context stacked as current. -/
theorem copy_to_device_device_src {T : Type} (D : Driver) (S : ScalarType T)
    (stack : List Nat) (dest src : MemRegion T) (g : Option Nat)
    (hk : src.memory_type = MemoryType.Device)
    (hmc : D.memcpyOk = true)
    (hty : dest.memory_type = MemoryType.Device)
    (hh : dest.head_addr ≠ src.head_addr)
    (hn : dest.num_elem = src.num_elem)
    (hg : guardSelect dest.context src.context = Outcome.ok g) :
    (copy_to_device D S stack dest src).1 =
      Outcome.ok ⟨Transfer.dtod (dest.num_elem * S.size_of),
        (match g with
          | some c => c :: stack
          | none => stack : List Nat).head?, src.data⟩ := by
  cases g with
  | some c => simp [copy_to_device, hk, hty, hh, hn, hg, hmc]
  | none => simp [copy_to_device, hk, hty, hh, hn, hg, hmc]

/-- A successful `copy_to_host` from a device source: one DtoH transfer,
run with the guard-selected context stacked as current. -/
theorem copy_to_host_device_src {T : Type} (D : Driver) (S : ScalarType T)
    (stack : List Nat) (dest src : MemRegion T) (g : Option Nat)
    (hk : src.memory_type = MemoryType.Device)
    (hmc : D.memcpyOk = true)
    (hh : dest.head_addr ≠ src.head_addr)
    (hn : dest.num_elem = src.num_elem)
    (hg : guardSelect dest.context src.context = Outcome.ok g) :
    (copy_to_host D S stack dest src).1 =
      Outcome.ok ⟨Transfer.dtoh (dest.num_elem * S.size_of),
        (match g with
          | some c => c :: stack
          | none => stack : List Nat).head?, src.data⟩ := by
  cases g with
  | some c => simp [copy_to_host, hk, hh, hn, hg, hmc]
  | none => simp [copy_to_host, hk, hh, hn, hg, hmc]

/-- C3 counterexample: a host-to-host copy between two page-locked regions
owned by *different* contexts (0 and 1) completes successfully, with no
context bound and no mismatch failure — so it is not the case that for every
copy two reported owning contexts must be equal and get bound: the context
discipline is absent from the host-addressable-source path of
`copy_to_host`. -/
theorem C3_counterexample :
    (copy_to_host D0 SByte [] plA plB).1 =
      Outcome.ok ⟨Transfer.hostSlice, none, [3, 4]⟩ := rfl

/-- C3 (amended): in `copy_to_device` (every source kind) and in
`copy_to_host` when the source is device memory: if both operands report an
owning context the two must be equal — a mismatch is a fatal assertion — and
the common context is current during the transfer; if exactly one operand
reports a context that one is current; if neither does, the current context
is unchanged; and the binding is a scoped acquisition — the context stack is
restored at the end of the call regardless of outcome.  (In `copy_to_host`
with a host-addressable source no binding or check is performed; see
C10.) -/
theorem C3_context_binding {T : Type} (D : Driver) (S : ScalarType T) :
    (∀ (stack : List Nat) (dest src : MemRegion T) (d s : Nat),
      dest.memory_type = MemoryType.Device →
      dest.head_addr ≠ src.head_addr → dest.num_elem = src.num_elem →
      dest.context = some d → src.context = some s → d ≠ s →
      (copy_to_device D S stack dest src).1 =
        Outcome.fatal "assertion failed: d_ctx == s_ctx") ∧
    (∀ (stack : List Nat) (dest src : MemRegion T) (d s : Nat),
      src.memory_type = MemoryType.Device →
      dest.head_addr ≠ src.head_addr → dest.num_elem = src.num_elem →
      dest.context = some d → src.context = some s → d ≠ s →
      (copy_to_host D S stack dest src).1 =
        Outcome.fatal "assertion failed: d_ctx == s_ctx") ∧
    (∀ (stack : List Nat) (dest src : MemRegion T) (c : Nat),
      src.memory_type ≠ MemoryType.Array → D.memcpyOk = true →
      dest.memory_type = MemoryType.Device →
      dest.head_addr ≠ src.head_addr → dest.num_elem = src.num_elem →
      dest.context = some c → src.context = some c →
      ∃ tr, (copy_to_device D S stack dest src).1 = Outcome.ok tr ∧
        tr.boundDuring = some c) ∧
    (∀ (stack : List Nat) (dest src : MemRegion T) (c : Nat),
      src.memory_type ≠ MemoryType.Array → D.memcpyOk = true →
      dest.memory_type = MemoryType.Device →
      dest.head_addr ≠ src.head_addr → dest.num_elem = src.num_elem →
      dest.context = some c → src.context = none →
      ∃ tr, (copy_to_device D S stack dest src).1 = Outcome.ok tr ∧
        tr.boundDuring = some c) ∧
    (∀ (stack : List Nat) (dest src : MemRegion T) (c : Nat),
      src.memory_type ≠ MemoryType.Array → D.memcpyOk = true →
      dest.memory_type = MemoryType.Device →
      dest.head_addr ≠ src.head_addr → dest.num_elem = src.num_elem →
      dest.context = none → src.context = some c →
      ∃ tr, (copy_to_device D S stack dest src).1 = Outcome.ok tr ∧
        tr.boundDuring = some c) ∧
    (∀ (stack : List Nat) (dest src : MemRegion T),
      src.memory_type ≠ MemoryType.Array → D.memcpyOk = true →
      dest.memory_type = MemoryType.Device →
      dest.head_addr ≠ src.head_addr → dest.num_elem = src.num_elem →
      dest.context = none → src.context = none →
      ∃ tr, (copy_to_device D S stack dest src).1 = Outcome.ok tr ∧
        tr.boundDuring = stack.head?) ∧
    (∀ (stack : List Nat) (dest src : MemRegion T) (c : Nat),
      src.memory_type = MemoryType.Device → D.memcpyOk = true →
      dest.head_addr ≠ src.head_addr → dest.num_elem = src.num_elem →
      dest.context = some c → src.context = some c →
      ∃ tr, (copy_to_host D S stack dest src).1 = Outcome.ok tr ∧
        tr.boundDuring = some c) ∧
    (∀ (stack : List Nat) (dest src : MemRegion T),
      (copy_to_device D S stack dest src).2 = stack) ∧
    (∀ (stack : List Nat) (dest src : MemRegion T),
      (copy_to_host D S stack dest src).2 = stack) := by
  have bindDev : ∀ (stack : List Nat) (dest src : MemRegion T)
      (g : Option Nat),
      src.memory_type ≠ MemoryType.Array → D.memcpyOk = true →
      dest.memory_type = MemoryType.Device →
      dest.head_addr ≠ src.head_addr → dest.num_elem = src.num_elem →
      guardSelect dest.context src.context = Outcome.ok g →
      ∃ tr, (copy_to_device D S stack dest src).1 = Outcome.ok tr ∧
        tr.boundDuring = (match g with
          | some c => c :: stack
          | none => stack : List Nat).head? := by
    intro stack dest src g hk hmc hty hh hn hg
    cases g with
    | some c =>
        cases hsrc : src.memory_type with
        | Array => exact absurd hsrc hk
        | Device =>
            exact ⟨_, copy_to_device_device_src D S stack dest src _ hsrc hmc
              hty hh hn hg, rfl⟩
        | Host =>
            exact ⟨_, copy_to_device_host_src D S stack dest src _
              (Or.inl hsrc) hmc hty hh hn hg, rfl⟩
        | Registered =>
            exact ⟨_, copy_to_device_host_src D S stack dest src _
              (Or.inr (Or.inl hsrc)) hmc hty hh hn hg, rfl⟩
        | PageLocked =>
            exact ⟨_, copy_to_device_host_src D S stack dest src _
              (Or.inr (Or.inr hsrc)) hmc hty hh hn hg, rfl⟩
    | none =>
        cases hsrc : src.memory_type with
        | Array => exact absurd hsrc hk
        | Device =>
            exact ⟨_, copy_to_device_device_src D S stack dest src _ hsrc hmc
              hty hh hn hg, rfl⟩
        | Host =>
            exact ⟨_, copy_to_device_host_src D S stack dest src _
              (Or.inl hsrc) hmc hty hh hn hg, rfl⟩
        | Registered =>
            exact ⟨_, copy_to_device_host_src D S stack dest src _
              (Or.inr (Or.inl hsrc)) hmc hty hh hn hg, rfl⟩
        | PageLocked =>
            exact ⟨_, copy_to_device_host_src D S stack dest src _
              (Or.inr (Or.inr hsrc)) hmc hty hh hn hg, rfl⟩
  refine ⟨?_, ?_, ?_, ?_, ?_, ?_, ?_,
    fun stack dest src => copy_to_device_stack D S stack dest src,
    fun stack dest src => copy_to_host_stack D S stack dest src⟩
  · intro stack dest src d s hty hh hn hdc hsc hds
    simp [copy_to_device, guardSelect, hty, hh, hn, hdc, hsc, hds]
  · intro stack dest src d s hty hh hn hdc hsc hds
    simp [copy_to_host, guardSelect, hty, hh, hn, hdc, hsc, hds]
  · intro stack dest src c hk hmc hty hh hn hdc hsc
    obtain ⟨tr, htr, hb⟩ := bindDev stack dest src (some c) hk hmc hty hh hn
      (by simp [guardSelect, hdc, hsc])
    exact ⟨tr, htr, by simpa using hb⟩
  · intro stack dest src c hk hmc hty hh hn hdc hsc
    obtain ⟨tr, htr, hb⟩ := bindDev stack dest src (some c) hk hmc hty hh hn
      (by simp [guardSelect, hdc, hsc])
    exact ⟨tr, htr, by simpa using hb⟩
  · intro stack dest src c hk hmc hty hh hn hdc hsc
    obtain ⟨tr, htr, hb⟩ := bindDev stack dest src (some c) hk hmc hty hh hn
      (by simp [guardSelect, hdc, hsc])
    exact ⟨tr, htr, by simpa using hb⟩
  · intro stack dest src hk hmc hty hh hn hdc hsc
    obtain ⟨tr, htr, hb⟩ := bindDev stack dest src none hk hmc hty hh hn
      (by simp [guardSelect, hdc, hsc])
    exact ⟨tr, htr, by simpa using hb⟩
  · intro stack dest src c hsrc hmc hh hn hdc hsc
    exact ⟨_, copy_to_host_device_src D S stack dest src (some c) hsrc hmc
      hh hn (by simp [guardSelect, hdc, hsc]), rfl⟩

/-- Witness for the amended C3: a context mismatch panics in both copy paths
(device destination and device source respectively); matched contexts are
bound during the transfer; with no prior stack and no owning contexts
nothing is bound; and a completed copy restores the empty stack. -/
theorem C3_context_binding_witness :
    ((copy_to_device D0 SByte [] devA plB).1 =
      Outcome.fatal "assertion failed: d_ctx == s_ctx") ∧
    ((copy_to_host D0 SByte [] plB devA).1 =
      Outcome.fatal "assertion failed: d_ctx == s_ctx") ∧
    (∃ tr, (copy_to_device D0 SByte [] devA plA).1 = Outcome.ok tr ∧
      tr.boundDuring = some 0) ∧
    (∃ tr, (copy_to_host D0 SByte [] plA devA).1 = Outcome.ok tr ∧
      tr.boundDuring = some 0) ∧
    ((copy_to_device D0 SByte [] devA plA).2 = []) := by
  have H := C3_context_binding (T := Nat) D0 SByte
  exact ⟨H.1 [] devA plB 0 1 rfl (by decide) rfl rfl rfl (by decide),
         H.2.1 [] plB devA 1 0 rfl (by decide) rfl rfl rfl (by decide),
         H.2.2.1 [] devA plA 0 (by decide) rfl rfl (by decide) rfl rfl rfl,
         H.2.2.2.2.2.2.1 [] plA devA 0 rfl rfl (by decide) rfl rfl rfl,
         H.2.2.2.2.2.2.2.1 [] devA plA⟩

/-- C7: the round trip — a page-locked region holding pattern `P`, copied
into a freshly zeroed device region of equal length, then copied back into a
second freshly zeroed page-locked region — reproduces `P` exactly, for every
lawful scalar type and every non-empty pattern (given that the driver's
allocation, memset and memcpy primitives succeed and the three regions do
not alias). -/
theorem C7_roundtrip {T : Type} (D : Driver) (S : ScalarType T)
    (L : LawfulScalar S) (c a1 pd ph : Nat) (P : List T)
    (junkd junkh : Nat → T)
    (hP : P ≠ [])
    (hd : D.allocManaged (P.length * S.size_of) = some pd)
    (hh : D.allocHost (P.length * S.size_of) = some ph)
    (h1 : pd ≠ a1) (h2 : ph ≠ pd)
    (hmc : D.memcpyOk = true) (hms : D.memsetOk = true) :
    ∃ dev devFilled pl2 result,
      DeviceMemory.zeros D S c P.length junkd = Outcome.ok dev ∧
      DeviceMemory.copy_from D S [] dev
        { head_addr := a1, data := P, memory_type := MemoryType.PageLocked
          slice_ok := true, context := some c } = Outcome.ok devFilled ∧
      PageLockedMemory.zeros D S c P.length junkh = Outcome.ok pl2 ∧
      PageLockedMemory.copy_from D S [] pl2 devFilled = Outcome.ok result ∧
      result.data = P := by
  have hn0 : P.length ≠ 0 := fun h => hP (List.eq_nil_of_length_eq_zero h)
  have hzd := device_zeros_ok D S L c P.length pd junkd hn0 hd hms
  have hzh := page_locked_zeros_ok D S c P.length ph junkh hn0 hh
  refine ⟨_, ⟨pd, P, MemoryType.Device, true, some c⟩, _,
    ⟨ph, P, MemoryType.PageLocked, true, some c⟩, hzd, ?_, hzh, ?_, rfl⟩
  · simp [DeviceMemory.copy_from, copy_to_device, guardSelect, h1, hmc,
      MemRegion.num_elem]
  · simp [PageLockedMemory.copy_from, copy_to_host, guardSelect, h2, hmc,
      MemRegion.num_elem]

/-- Witness for C7 with the concrete pattern `P = [5, 6]` over the 1-byte
scalar and the always-succeeding driver. -/
theorem C7_roundtrip_witness :
    ∃ dev devFilled pl2 result,
      DeviceMemory.zeros D0 SByte 0 2 (fun _ => 7) = Outcome.ok dev ∧
      DeviceMemory.copy_from D0 SByte [] dev
        { head_addr := 10, data := [5, 6]
          memory_type := MemoryType.PageLocked
          slice_ok := true, context := some 0 } = Outcome.ok devFilled ∧
      PageLockedMemory.zeros D0 SByte 0 2 (fun _ => 8) = Outcome.ok pl2 ∧
      PageLockedMemory.copy_from D0 SByte [] pl2 devFilled =
        Outcome.ok result ∧
      result.data = [5, 6] :=
  C7_roundtrip D0 SByte SByte_lawful 0 10 100 200 [5, 6]
    (fun _ => 7) (fun _ => 8) (by decide) rfl rfl (by decide) (by decide)
    rfl rfl

end Acc
